import Mathlib

/-!
Verification of the ABCBank account-creation and loan-application logic.

The definitions below are a shallow embedding of the notebook source
`ABCBank.ipynb`: the `Account` class hierarchy (five concrete account kinds
plus four decorator classes) becomes an inductive type whose `account_type`
method is a recursive function; the `Customer` class becomes a structure;
`BankingServices.create_account`, `upgrade_account`, `apply_discount` and
`LoanApplication.apply_for_loan` become functions on these types.
-/

/-- The `Account` class hierarchy of the source: five concrete subclasses
returning a fixed label from `account_type`, and four `AccountDecorator`
subclasses wrapping an inner account. -/
inductive Account where
  | CurrentAccount : Account
  | HomeLoanAccount : Account
  | CarLoanAccount : Account
  | PersonalLoanAccount : Account
  | SavingsAccount : Account
  | BronzeAccountDecorator (account : Account) : Account
  | SilverAccountDecorator (account : Account) : Account
  | GoldAccountDecorator (account : Account) : Account
  | DiscountedAccount (account : Account) : Account
deriving DecidableEq

/-- The `account_type` method: each concrete class returns its fixed label;
each decorator returns the wrapped account's description plus its suffix. -/
def Account.account_type : Account → String
  | .CurrentAccount => "Current Account Created"
  | .HomeLoanAccount => "Home Loan Account Created"
  | .CarLoanAccount => "Car Loan Account Created"
  | .PersonalLoanAccount => "Personal Loan Account Created"
  | .SavingsAccount => "Savings Account Created"
  | .BronzeAccountDecorator a => a.account_type ++ " with Bronze features"
  | .SilverAccountDecorator a => a.account_type ++ " with Silver features"
  | .GoldAccountDecorator a => a.account_type ++ " with Gold features"
  | .DiscountedAccount a => a.account_type ++ " with discount"

/-- The `Customer` class: a plain record of name, age, income, education and
credit score. -/
structure Customer where
  name : String
  age : Nat
  income : Nat
  education : String
  credit_score : Int
deriving DecidableEq

/-- `Customer.check_credit`: `self.credit_score > 700`. -/
def Customer.check_credit (c : Customer) : Bool :=
  c.credit_score > 700

/-- The `account_factories` dictionary of `BankingServices.__init__`,
as a lookup from the type string to the account the factory builds
(`dict.get` returns `None` on a missing key). -/
def account_factories (type : String) : Option Account :=
  if type = "Current" then some .CurrentAccount
  else if type = "HomeLoan" then some .HomeLoanAccount
  else if type = "CarLoan" then some .CarLoanAccount
  else if type = "PersonalLoan" then some .PersonalLoanAccount
  else if type = "Savings" then some .SavingsAccount
  else none

/-- `BankingServices.create_account`: the eligibility conditionals in source
order, then the factory lookup with the `"Invalid account type"` default. -/
def create_account (type : String) (customer : Customer) : String :=
  if type = "HomeLoan" ∧ customer.age > 50 then
    "Sorry, customers over 50 do not qualify for home loans."
  else if (type = "CarLoan" ∨ type = "PersonalLoan") ∧ customer.income < 50000 then
    "Sorry, you need a minimum income of 50,000 for car and personal loans."
  else if type = "Savings" ∧ customer.age < 18 then
    "Sorry, you need to be at least 18 years old to open a savings account."
  else
    match account_factories type with
    | some account => account.account_type
    | none => "Invalid account type"

/-- `BankingServices.upgrade_account`: wrap in the decorator matching the
level, or return `"Invalid level"`. -/
def upgrade_account (account : Account) (level : String) : String :=
  if level = "Bronze" then (Account.BronzeAccountDecorator account).account_type
  else if level = "Silver" then (Account.SilverAccountDecorator account).account_type
  else if level = "Gold" then (Account.GoldAccountDecorator account).account_type
  else "Invalid level"

/-- `BankingServices.apply_discount`: always wrap in `DiscountedAccount`. -/
def apply_discount (account : Account) : String :=
  (Account.DiscountedAccount account).account_type

/-- `LoanApplication.apply_for_loan`: the credit gate, then delegation to
`create_account`. -/
def apply_for_loan (type : String) (customer : Customer) : String :=
  if customer.check_credit then create_account type customer
  else "Sorry, your credit score is too low for a loan."

/-- C1: for every kind and every customer whose credit score is at most 700,
`apply_for_loan` returns the low-credit message; the check happens before any
eligibility rule (an over-50 customer with score 650 applying for a HomeLoan
gets the low-credit message, not the age rejection); score 701 passes the
gate and the application is settled by `create_account`. -/
theorem applyForLoan_low_credit_gate :
    (∀ (t : String) (c : Customer), c.credit_score ≤ 700 →
        apply_for_loan t c = "Sorry, your credit score is too low for a loan.") ∧
    apply_for_loan "HomeLoan" ⟨"Lisa Andersen", 55, 80000, "MSc", 650⟩ =
        "Sorry, your credit score is too low for a loan." ∧
    (∀ (t : String) (c : Customer), c.credit_score = 701 →
        apply_for_loan t c = create_account t c) := by
  refine ⟨?_, by decide, ?_⟩
  · intro t c h
    have hb : c.check_credit = false := by
      simp [Customer.check_credit, not_lt.mpr h]
    simp [apply_for_loan, hb]
  · intro t c h
    have hb : c.check_credit = true := by
      simp [Customer.check_credit, h]
    simp [apply_for_loan, hb]

/-- C1 witness: the gate rejects a concrete score-700 customer. -/
theorem applyForLoan_low_credit_gate_witness :
    apply_for_loan "Current" ⟨"Kim", 30, 60000, "BSc", 700⟩ =
      "Sorry, your credit score is too low for a loan." :=
  applyForLoan_low_credit_gate.1 "Current" ⟨"Kim", 30, 60000, "BSc", 700⟩ (by decide)

/-- C2: for every kind and every customer with credit score strictly above
700, `apply_for_loan` returns exactly the result of `create_account`. -/
theorem applyForLoan_delegates (t : String) (c : Customer)
    (h : c.credit_score > 700) :
    apply_for_loan t c = create_account t c := by
  have hb : c.check_credit = true := by
    simp [Customer.check_credit, h]
  simp [apply_for_loan, hb]

/-- C2 witness: delegation at a concrete eligible customer. -/
theorem applyForLoan_delegates_witness :
    apply_for_loan "CarLoan" ⟨"Ola", 25, 70000, "BSc", 800⟩ =
      create_account "CarLoan" ⟨"Ola", 25, 70000, "BSc", 800⟩ :=
  applyForLoan_delegates "CarLoan" ⟨"Ola", 25, 70000, "BSc", 800⟩ (by decide)

/-- C3: `create_account "HomeLoan"` rejects exactly the customers of age
strictly above 50, whatever their other fields, and otherwise returns the
fixed label `"Home Loan Account Created"`. -/
theorem createAccount_homeLoan_age_rule (c : Customer) :
    create_account "HomeLoan" c =
      if c.age > 50 then "Sorry, customers over 50 do not qualify for home loans."
      else "Home Loan Account Created" := by
  by_cases h : c.age > 50 <;>
    simp [create_account, account_factories, Account.account_type, h]

/-- C4: for CarLoan and PersonalLoan, `create_account` rejects exactly the
customers with income strictly below 50000 and otherwise returns the kind's
fixed label; for every other kind the result is independent of income. -/
theorem createAccount_income_rule :
    (∀ c : Customer, create_account "CarLoan" c =
        if c.income < 50000 then
          "Sorry, you need a minimum income of 50,000 for car and personal loans."
        else "Car Loan Account Created") ∧
    (∀ c : Customer, create_account "PersonalLoan" c =
        if c.income < 50000 then
          "Sorry, you need a minimum income of 50,000 for car and personal loans."
        else "Personal Loan Account Created") ∧
    (∀ (t : String) (c : Customer) (i : Nat),
        t ≠ "CarLoan" → t ≠ "PersonalLoan" →
        create_account t { c with income := i } = create_account t c) := by
  refine ⟨?_, ?_, ?_⟩
  · intro c
    by_cases h : c.income < 50000 <;>
      simp [create_account, account_factories, Account.account_type, h]
  · intro c
    by_cases h : c.income < 50000 <;>
      simp [create_account, account_factories, Account.account_type, h]
  · intro t c i h1 h2
    simp [create_account, h1, h2]

/-- C4 witness: a non-loan kind evaluated with two different incomes. -/
theorem createAccount_income_rule_witness :
    create_account "Savings" ⟨"Kim", 30, 0, "BSc", 750⟩ =
      create_account "Savings" ⟨"Kim", 30, 99999, "BSc", 750⟩ :=
  createAccount_income_rule.2.2 "Savings" ⟨"Kim", 30, 99999, "BSc", 750⟩ 0
    (by decide) (by decide)

/-- C5: `create_account "Savings"` rejects exactly the customers of age
strictly below 18, and otherwise returns `"Savings Account Created"`. -/
theorem createAccount_savings_age_rule (c : Customer) :
    create_account "Savings" c =
      if c.age < 18 then
        "Sorry, you need to be at least 18 years old to open a savings account."
      else "Savings Account Created" := by
  by_cases h : c.age < 18 <;>
    simp [create_account, account_factories, Account.account_type, h]

/-- C6: for every kind string outside the five known kinds, `create_account`
returns `"Invalid account type"` for every customer. -/
theorem createAccount_invalid_kind (t : String) (c : Customer)
    (h : t ≠ "Current" ∧ t ≠ "HomeLoan" ∧ t ≠ "CarLoan" ∧
         t ≠ "PersonalLoan" ∧ t ≠ "Savings") :
    create_account t c = "Invalid account type" := by
  obtain ⟨h1, h2, h3, h4, h5⟩ := h
  simp [create_account, account_factories, h1, h2, h3, h4, h5]

/-- C6 witness: an unknown kind at a concrete customer. -/
theorem createAccount_invalid_kind_witness :
    create_account "Bogus" ⟨"Kim", 30, 60000, "BSc", 750⟩ =
      "Invalid account type" :=
  createAccount_invalid_kind "Bogus" ⟨"Kim", 30, 60000, "BSc", 750⟩ (by decide)

/-- C7 counterexample: the home-loan age rejection issued by the code is not
the string `"customers over 50 do not qualify for home loans."` given in the
specification (the code prefixes `"Sorry, "` and the other two rejections are
worded differently as well). -/
theorem createAccount_rejection_text_counterexample :
    create_account "HomeLoan" ⟨"Kim", 51, 60000, "BSc", 750⟩ ≠
      "customers over 50 do not qualify for home loans." := by
  decide

/-- C7 amended: the three eligibility rejection texts are exactly the
source's strings, each starting with `"Sorry, "`: the home-loan age rule
yields `"Sorry, customers over 50 do not qualify for home loans."`, the
income rule yields `"Sorry, you need a minimum income of 50,000 for car and
personal loans."`, and the savings age rule yields `"Sorry, you need to be
at least 18 years old to open a savings account."`. -/
theorem createAccount_rejection_texts :
    (∀ c : Customer, c.age > 50 →
        create_account "HomeLoan" c =
          "Sorry, customers over 50 do not qualify for home loans.") ∧
    (∀ c : Customer, c.income < 50000 →
        create_account "CarLoan" c =
          "Sorry, you need a minimum income of 50,000 for car and personal loans." ∧
        create_account "PersonalLoan" c =
          "Sorry, you need a minimum income of 50,000 for car and personal loans.") ∧
    (∀ c : Customer, c.age < 18 →
        create_account "Savings" c =
          "Sorry, you need to be at least 18 years old to open a savings account.") := by
  refine ⟨?_, ?_, ?_⟩
  · intro c h
    simp [create_account, h]
  · intro c h
    constructor <;> simp [create_account, h]
  · intro c h
    simp [create_account, h]

/-- C7 witness: the home-loan rejection text at a concrete over-50
customer. -/
theorem createAccount_rejection_texts_witness :
    create_account "HomeLoan" ⟨"Kim", 51, 60000, "BSc", 750⟩ =
      "Sorry, customers over 50 do not qualify for home loans." :=
  createAccount_rejection_texts.1 ⟨"Kim", 51, 60000, "BSc", 750⟩ (by decide)

/-- C8: each decorator appends its fixed suffix to the description of the
account it wraps, and composing decorators concatenates the suffixes in
application order: wrapping in Bronze then Discount yields the base
description followed by `" with Bronze features"` then `" with discount"`. -/
theorem decorator_suffixes (a : Account) :
    (Account.BronzeAccountDecorator a).account_type =
        a.account_type ++ " with Bronze features" ∧
    (Account.SilverAccountDecorator a).account_type =
        a.account_type ++ " with Silver features" ∧
    (Account.GoldAccountDecorator a).account_type =
        a.account_type ++ " with Gold features" ∧
    (Account.DiscountedAccount a).account_type =
        a.account_type ++ " with discount" ∧
    (Account.DiscountedAccount (Account.BronzeAccountDecorator a)).account_type =
        a.account_type ++ " with Bronze features" ++ " with discount" := by
  refine ⟨rfl, rfl, rfl, rfl, rfl⟩

/-- C9: `upgrade_account` with level Bronze, Silver or Gold returns the
account's description with the matching tier suffix, and any other level
yields `"Invalid level"` with no decoration; `apply_discount` always returns
the description with `" with discount"` appended. -/
theorem upgradeAccount_and_discount :
    (∀ (a : Account) (level : String),
        upgrade_account a level =
          if level = "Bronze" then a.account_type ++ " with Bronze features"
          else if level = "Silver" then a.account_type ++ " with Silver features"
          else if level = "Gold" then a.account_type ++ " with Gold features"
          else "Invalid level") ∧
    (∀ a : Account, apply_discount a = a.account_type ++ " with discount") := by
  constructor
  · intro a level
    by_cases h1 : level = "Bronze"
    · simp [upgrade_account, Account.account_type, h1]
    · by_cases h2 : level = "Silver"
      · simp [upgrade_account, Account.account_type, h1, h2]
      · by_cases h3 : level = "Gold"
        · simp [upgrade_account, Account.account_type, h1, h2, h3]
        · simp [upgrade_account, h1, h2, h3]
  · intro a
    rfl

/-- C10: `create_account` depends only on the kind and the customer's age and
income; `check_credit` depends only on the credit score; hence
`apply_for_loan` depends only on the kind, age, income and credit score —
name and education never influence any result. -/
theorem services_noninterference :
    (∀ (t : String) (c1 c2 : Customer), c1.age = c2.age → c1.income = c2.income →
        create_account t c1 = create_account t c2) ∧
    (∀ c1 c2 : Customer, c1.credit_score = c2.credit_score →
        c1.check_credit = c2.check_credit) ∧
    (∀ (t : String) (c1 c2 : Customer), c1.age = c2.age → c1.income = c2.income →
        c1.credit_score = c2.credit_score →
        apply_for_loan t c1 = apply_for_loan t c2) := by
  have hca : ∀ (t : String) (c1 c2 : Customer), c1.age = c2.age →
      c1.income = c2.income → create_account t c1 = create_account t c2 := by
    intro t c1 c2 ha hi
    simp [create_account, ha, hi]
  refine ⟨hca, ?_, ?_⟩
  · intro c1 c2 hs
    simp [Customer.check_credit, hs]
  · intro t c1 c2 ha hi hs
    simp only [apply_for_loan, Customer.check_credit, hs]
    split <;> [exact hca t c1 c2 ha hi; rfl]

/-- C10 witness: two customers differing only in name and education get the
same loan outcome. -/
theorem services_noninterference_witness :
    apply_for_loan "Savings" ⟨"Kim", 30, 60000, "BSc", 750⟩ =
      apply_for_loan "Savings" ⟨"Alex", 30, 60000, "PhD", 750⟩ :=
  services_noninterference.2.2 "Savings" ⟨"Kim", 30, 60000, "BSc", 750⟩
    ⟨"Alex", 30, 60000, "PhD", 750⟩ rfl rfl rfl
